import Mathlib

/-!
Verification of the cooling-center proximity and status engine of
`src/utils/data.py` and `src/utils/maps.py`, embedded shallowly in Lean.

Modelling conventions:
* Python strings are Lean `String`s; character-level operations
  (`str.split('-')`, `str.strip()`, `datetime.strptime`) are embedded as
  structural recursions over `List Char`.
* `datetime.now()` — the implicit wall-clock state read inside
  `_is_center_open` — becomes an explicit `Datetime` argument, as all
  implicit state does in a shallow embedding.
* Python floats (coordinates, miles) are modelled as rationals `ℚ`; the
  external `geopy.distance.geodesic(...).miles` computation is a
  floating-point black box and is modelled as an abstract distance
  function parameter `DistFn` of the two coordinate pairs, so every
  theorem about filtering/sorting/limiting holds for the actual geodesic
  as one instance.
* A `pandas.DataFrame` of facility rows is a `List StoredRow`;
  `sort_values('distance')` on a small frame is modelled as a stable
  sort on the `distance` key alone (numpy's sort is stable on the small
  frames involved, and in particular consults no second key).
* Exceptions caught inside a function (the `try/except` in
  `_is_center_open`, `geocode_address`) are modelled with `Option`:
  the parsing/provider step returns `none` where Python raises, and the
  caller's `except` branch is the `none` branch.
-/

/-- The wall-clock value produced by `datetime.now()`: the
`_is_center_open` code reads only `now.hour` and `now.minute`. -/
structure Datetime where
  year : Nat
  month : Nat
  day : Nat
  hour : Nat
  minute : Nat
deriving DecidableEq, Repr

/-- `now.hour * 60 + now.minute`, the `current_minutes` of
`_is_center_open`. -/
def minutesOfDay (now : Datetime) : Nat :=
  now.hour * 60 + now.minute

/-- Python `str.split('-')` on the character list: splits on every `'-'`,
keeping empty segments, and yields one (possibly empty) segment for the
empty string — exactly CPython's `split` with an explicit separator. -/
def pySplitDash : List Char → List (List Char)
  | [] => [[]]
  | ch :: rest =>
    match pySplitDash rest with
    | [] => [[]]
    | seg :: segs =>
      if ch = '-' then [] :: seg :: segs else (ch :: seg) :: segs

/-- Python `str.strip()`: drop whitespace from both ends. -/
def pyStrip (cs : List Char) : List Char :=
  ((cs.dropWhile Char.isWhitespace).reverse.dropWhile Char.isWhitespace).reverse

/-- Decimal value of a digit run, as `strptime` reads it. -/
def digitsToNat (ds : List Char) : Nat :=
  ds.foldl (fun a ch => a * 10 + (ch.toNat - 48)) 0

/-- `datetime.strptime(time_str, '%I:%M%p')` reduced to the minutes since
midnight that `_is_center_open`'s `convert_to_24hr` computes from it
(`time.hour * 60 + time.minute`); `none` where `strptime` raises
`ValueError`.  The accepted strings are those matched in full by
`(1[0-2]|0[1-9]|[1-9]):([0-5]\d|\d)(AM|PM)` case-insensitively on the
marker, i.e. a 1–2 digit hour in 1..12, `':'`, a 1–2 digit minute in
0..59, and the AM/PM marker, with nothing left over. -/
def parseTime12 (cs : List Char) : Option Nat :=
  let hds := cs.takeWhile Char.isDigit
  let rest := cs.dropWhile Char.isDigit
  if hds.length = 0 ∨ 2 < hds.length then none
  else
    let h := digitsToNat hds
    if h < 1 ∨ 12 < h then none
    else
      match rest with
      | ':' :: rest2 =>
        let mds := rest2.takeWhile Char.isDigit
        let rest3 := rest2.dropWhile Char.isDigit
        if mds.length = 0 ∨ 2 < mds.length then none
        else
          let m := digitsToNat mds
          if 59 < m then none
          else
            match rest3.map Char.toUpper with
            | ['A', 'M'] => some ((h % 12) * 60 + m)
            | ['P', 'M'] => some ((h % 12 + 12) * 60 + m)
            | _ => none
      | _ => none

/-- `convert_to_24hr` of `_is_center_open`: strip the bound, parse it as a
12-hour time, return minutes since midnight; `none` where the Python
raises. -/
def convert_to_24hr (time_str : List Char) : Option Nat :=
  parseTime12 (pyStrip time_str)

/-- The parsing prefix of `_is_center_open`'s `try` block:
`open_time, close_time = hours.split('-')` followed by the two
`convert_to_24hr` calls, with the exceptions those steps can raise
(`ValueError` from a split that is not exactly two parts, `ValueError`
from `strptime`) modelled as `none`, to be caught by the `except`
branch.  Yields `some (open_minutes, close_minutes)` exactly when the
split gives two bounds and both parse. -/
def parse_hours (hours : String) : Option (Nat × Nat) :=
  match pySplitDash hours.data with
  | [o, c] =>
    match convert_to_24hr o, convert_to_24hr c with
    | some om, some cm => some (om, cm)
    | _, _ => none
  | _ => none

/-- `CoolingCenterData._is_center_open(hours)` with the implicit
`datetime.now()` made explicit: run the parsing prefix of the `try`
block, and on success test
`open_minutes <= current_minutes <= close_minutes`; the `except` branch
catches any parse failure and returns `False`. -/
def is_center_open (hours : String) (now : Datetime) : Bool :=
  match parse_hours hours with
  | some (open_minutes, close_minutes) =>
    decide (open_minutes ≤ minutesOfDay now ∧ minutesOfDay now ≤ close_minutes)
  | none => false

example : parse_hours "9:00AM-9:00PM" = some (540, 1260) := by decide
example : parse_hours "7:00AM-9:00PM" = some (420, 1260) := by decide
example : parse_hours "10:00AM-8:00PM" = some (600, 1200) := by decide
example : parse_hours "12:00AM-12:59PM" = some (0, 779) := by decide
example : parse_hours "9AM-9PM" = none := by decide
example : parse_hours "9:00-9:00PM" = none := by decide
example : parse_hours "9:00AM" = none := by decide
example : parse_hours "9:00AM-5:00PM-1:00AM" = none := by decide
example : parse_hours "13:00AM-9:00PM" = none := by decide
example : parse_hours " 9:05am - 9:30pm " = some (545, 1290) := by decide
example : parse_hours "9:05am-9:30pm" = some (545, 1290) := by decide
example : parse_hours "9:5AM-09:30PM" = some (545, 1290) := by decide
example : is_center_open "9:00AM-9:00PM" ⟨2026, 7, 1, 8, 59⟩ = false := by decide
example : is_center_open "9:00AM-9:00PM" ⟨2026, 7, 1, 9, 0⟩ = true := by decide
example : is_center_open "9:00AM-9:00PM" ⟨2026, 7, 1, 21, 0⟩ = true := by decide
example : is_center_open "9:00AM-9:00PM" ⟨2026, 7, 1, 21, 1⟩ = false := by decide

/-- A facility record of the seed list `COOLING_CENTERS` in
`src/utils/data.py` (coordinates as a rational latitude/longitude
pair). -/
structure Center where
  name : String
  address : String
  type : String
  coordinates : ℚ × ℚ
  hours : String
  has_ac : Bool
  features : List String
  notes : String
deriving DecidableEq, Repr

/-- A row of `self.df` after `__init__`: the facility columns plus the
derived `lat`/`lng` columns split off `coordinates`. -/
structure StoredRow where
  center : Center
  lat : ℚ
  lng : ℚ
deriving DecidableEq, Repr

/-- The in-memory catalog: the DataFrame `self.df`. -/
structure CoolingCenterData where
  df : List StoredRow
deriving DecidableEq, Repr

/-- `CoolingCenterData.__init__`: build the DataFrame from the seed
record list and split `coordinates` into `lat` and `lng` columns.  The
seed list is the class constant `COOLING_CENTERS`, treated as external
configuration, so construction is modelled over an arbitrary record
list.  No validation of any kind is performed; in particular no
duplicate-name check, and `pd.DataFrame` accepts any record list. -/
def CoolingCenterData.init (seed : List Center) : CoolingCenterData :=
  { df := seed.map fun c => { center := c, lat := c.coordinates.1, lng := c.coordinates.2 } }

/-- The class constant `COOLING_CENTERS` of `src/utils/data.py`. -/
def COOLING_CENTERS : List Center :=
  [ { name := "Rainier Beach Community Center"
    , address := "8825 Rainier Ave S, Seattle, WA 98118"
    , type := "Community Center"
    , coordinates := (475223/10000, -1222666/10000)
    , hours := "9:00AM-9:00PM"
    , has_ac := true
    , features := ["Air Conditioning", "Water Fountain", "Restrooms"]
    , notes := "Regular business hours" }
  , { name := "International District/Chinatown Community Center"
    , address := "719 8th Ave S, Seattle, WA 98104"
    , type := "Community Center"
    , coordinates := (475964/10000, -1223203/10000)
    , hours := "9:00AM-9:00PM"
    , has_ac := true
    , features := ["Air Conditioning", "Water Fountain", "Restrooms"]
    , notes := "Regular business hours" }
  , { name := "Northgate Community Center"
    , address := "10510 5th Ave NE, Seattle, WA 98125"
    , type := "Community Center"
    , coordinates := (477052/10000, -1223438/10000)
    , hours := "9:00AM-9:00PM"
    , has_ac := true
    , features := ["Air Conditioning", "Water Fountain", "Restrooms"]
    , notes := "Regular business hours" }
  , { name := "Magnuson Community Center"
    , address := "7110 62nd Avenue NE, Seattle, WA 98115"
    , type := "Community Center"
    , coordinates := (476814/10000, -1222752/10000)
    , hours := "9:00AM-9:00PM"
    , has_ac := true
    , features := ["Air Conditioning", "Water Fountain", "Restrooms"]
    , notes := "Regular business hours" }
  , { name := "Seattle Center Armory"
    , address := "Food & Event Hall, Seattle Center"
    , type := "Event Hall"
    , coordinates := (476219/10000, -1223517/10000)
    , hours := "7:00AM-9:00PM"
    , has_ac := true
    , features := ["Air Conditioning", "Food Court", "Restrooms"]
    , notes := "Summer operation hours" }
  , { name := "Central Library"
    , address := "1000 4th Ave, Seattle, WA 98104"
    , type := "Library"
    , coordinates := (476067/10000, -1223325/10000)
    , hours := "10:00AM-8:00PM"
    , has_ac := true
    , features := ["Air Conditioning", "Water Fountain", "Restrooms", "Seating"]
    , notes := "Hours may vary. Check www.spl.org/Today for updates" }
  ]

/-- The external geodesic-miles computation
`geodesic((lat1, lng1), (lat2, lng2)).miles` of `_calculate_distance`:
a black-box numeric function of the user point and the facility
coordinate pair, abstracted so that every theorem about the query
pipeline holds for the actual geodesic as one instance. -/
def DistFn : Type :=
  ℚ → ℚ → ℚ × ℚ → ℚ

/-- A row of the frame `get_nearest_centers` returns: the copied stored
columns plus the derived `distance` and `is_open` columns. -/
structure QueryRow where
  row : StoredRow
  distance : ℚ
  is_open : Bool
deriving DecidableEq, Repr

/-- `DataFrame.head(limit)` for an `int` limit as pandas defines it:
the first `limit` rows when `limit ≥ 0`, all but the last `-limit` rows
when `limit < 0`. -/
def pyHead (rows : List QueryRow) (limit : Int) : List QueryRow :=
  if 0 ≤ limit then rows.take limit.toNat
  else rows.take (rows.length - (-limit).toNat)

/-- The sort key of `centers.sort_values('distance')`: compare rows by
the `distance` column alone. -/
def distLE (a b : StoredRow × ℚ) : Prop :=
  a.2 ≤ b.2

instance : DecidableRel distLE :=
  fun a b => inferInstanceAs (Decidable (a.2 ≤ b.2))

instance : IsTotal (StoredRow × ℚ) distLE :=
  ⟨fun a b => le_total a.2 b.2⟩

instance : IsTrans (StoredRow × ℚ) distLE :=
  ⟨fun _ _ _ => le_trans⟩

/-- The pipeline of `get_nearest_centers` before the final `limit` step
(`src/utils/data.py` lines 105–121): copy the frame, add a `distance`
column from `_calculate_distance` against each row's `coordinates`, keep
rows with `distance <= max_distance`, sort by `distance` (stable, no
second key), and add the `is_open` column. -/
def nearestUnlimited (dist : DistFn) (cat : CoolingCenterData)
    (lat lng : ℚ) (max_distance : ℚ) (now : Datetime) : List QueryRow :=
  let centers := cat.df.map fun row => (row, dist lat lng row.center.coordinates)
  let flt := centers.filter fun p => p.2 ≤ max_distance
  let srt := flt.insertionSort distLE
  srt.map fun p =>
    { row := p.1, distance := p.2, is_open := is_center_open p.1.center.hours now }

/-- `CoolingCenterData.get_nearest_centers(lat, lng, max_distance,
limit)` with the implicit `datetime.now()` explicit and the geodesic
black box a parameter: run the distance/filter/sort/status pipeline and
then apply `head(limit)` only when `limit` is truthy (`if limit:`) —
`None` and `0` both skip the cap. -/
def get_nearest_centers (dist : DistFn) (cat : CoolingCenterData)
    (lat lng : ℚ) (max_distance : ℚ) (limit : Option Int) (now : Datetime) :
    List QueryRow :=
  let centers := nearestUnlimited dist cat lat lng max_distance now
  match limit with
  | some n => if n ≠ 0 then pyHead centers n else centers
  | none => centers

/-- `get_all_centers`: the whole frame. -/
def get_all_centers (cat : CoolingCenterData) : List StoredRow :=
  cat.df

/-- `get_open_centers` with the implicit `datetime.now()` explicit:
the rows whose hours pass `_is_center_open`. -/
def get_open_centers (cat : CoolingCenterData) (now : Datetime) : List StoredRow :=
  cat.df.filter fun row => is_center_open row.center.hours now

/-- `get_centers_by_type`: the rows of the given `type`. -/
def get_centers_by_type (cat : CoolingCenterData) (center_type : String) : List StoredRow :=
  cat.df.filter fun row => row.center.type = center_type

/-- `get_center_by_name`: the first row with the given name, `None` when
the filtered frame is empty. -/
def get_center_by_name (cat : CoolingCenterData) (name : String) : Option StoredRow :=
  (cat.df.filter fun row => row.center.name = name).head?

/-- `get_centers_with_feature`: the rows whose `features` list contains
the feature (Python `in` on a list of strings). -/
def get_centers_with_feature (cat : CoolingCenterData) (feature : String) : List StoredRow :=
  cat.df.filter fun row => row.center.features.contains feature

/-- One call to a public query method of `CoolingCenterData`, with every
implicit input (clock, geodesic) made explicit. -/
inductive Query where
  | getAll
  | getOpen (now : Datetime)
  | getNearest (dist : DistFn) (lat lng max_distance : ℚ) (limit : Option Int) (now : Datetime)
  | getByType (center_type : String)
  | getByName (name : String)
  | getWithFeature (feature : String)

/-- The value a query call returns: a frame of stored rows, a frame
annotated with `distance`/`is_open`, or a single optional record. -/
inductive QueryOutput where
  | frame (rows : List StoredRow)
  | annotated (rows : List QueryRow)
  | record (r : Option StoredRow)

/-- Run one query against the catalog state and return its output and
the post-state.  `get_nearest_centers` works on `self.df.copy()` and all
column assignments (`centers['distance']`, `centers['is_open']`) target
that copy; the remaining methods only build filtered views; no method
assigns to `self.df`, so the post-state is the unchanged catalog. -/
def runQuery (cat : CoolingCenterData) : Query → QueryOutput × CoolingCenterData
  | .getAll => (.frame (get_all_centers cat), cat)
  | .getOpen now => (.frame (get_open_centers cat now), cat)
  | .getNearest dist lat lng max_distance limit now =>
      (.annotated (get_nearest_centers dist cat lat lng max_distance limit now), cat)
  | .getByType t => (.frame (get_centers_by_type cat t), cat)
  | .getByName n => (.record (get_center_by_name cat n), cat)
  | .getWithFeature f => (.frame (get_centers_with_feature cat f), cat)

/-- Thread the catalog state through a sequence of query calls. -/
def runQueries (cat : CoolingCenterData) (qs : List Query) : CoolingCenterData :=
  qs.foldl (fun c q => (runQuery c q).2) cat

/-- The outcome of the provider call `self.gmaps.geocode(address)` in
`MapService.geocode_address`: either a result list — each element's
`['geometry']['location']` pair, with `none` standing for a malformed
result dict whose key lookup raises — or a raised provider error
(network, quota, auth, malformed request). -/
inductive GeocodeResponse where
  | ok (results : List (Option (ℚ × ℚ)))
  | error (msg : String)

/-- `MapService.geocode_address(address)` over an abstract provider
`gmaps`: return the first result's location pair, `None` when the result
list is empty, and `None` via the `except` branch when the provider call
or the key lookups raise. -/
def geocode_address (gmaps : String → GeocodeResponse) (address : String) :
    Option (ℚ × ℚ) :=
  match gmaps address with
  | .error _ => none
  | .ok [] => none
  | .ok (some loc :: _) => some loc
  | .ok (none :: _) => none

/-- C1: for every well-formed hours string (its two `-`-separated bounds
both parse as 12-hour AM/PM times, to `om` and `cm` minutes since
midnight) and every evaluation instant, `_is_center_open` returns true
iff `open_minutes <= current_minutes <= close_minutes`, both ends
inclusive. -/
theorem is_center_open_iff_within_window (hours : String) (om cm : Nat)
    (now : Datetime) (h : parse_hours hours = some (om, cm)) :
    is_center_open hours now = true ↔
      om ≤ minutesOfDay now ∧ minutesOfDay now ≤ cm := by
  unfold is_center_open
  rw [h]
  simp

/-- Witness for C1 at `"9:00AM-9:00PM"`, instant 21:00 (1260 minutes):
the bounds parse to (540, 1260) and the range test is inclusive at the
close bound. -/
theorem is_center_open_iff_within_window_witness :
    is_center_open "9:00AM-9:00PM" ⟨2026, 7, 1, 21, 0⟩ = true ↔
      540 ≤ 1260 ∧ 1260 ≤ 1260 :=
  is_center_open_iff_within_window "9:00AM-9:00PM" 540 1260
    ⟨2026, 7, 1, 21, 0⟩ (by decide)

/-- C2: a malformed hours string — the split on `-` does not give
exactly two parts, or a bound fails to parse as a 12-hour AM/PM time —
makes `_is_center_open` return `False` at every instant; the failure is
caught inside the function (modelled by the parse steps returning
`none`), never raised to the caller. -/
theorem is_center_open_false_of_malformed (hours : String) (now : Datetime)
    (h : (pySplitDash hours.data).length ≠ 2 ∨
      ∃ o c, pySplitDash hours.data = [o, c] ∧
        (convert_to_24hr o = none ∨ convert_to_24hr c = none)) :
    is_center_open hours now = false := by
  have hp : parse_hours hours = none := by
    unfold parse_hours
    rcases h with h | ⟨o, c, hoc, h⟩
    · cases hs : pySplitDash hours.data with
      | nil => rfl
      | cons a l =>
        cases l with
        | nil => rfl
        | cons b l2 =>
          cases l2 with
          | nil => exact absurd (by simp [hs]) h
          | cons e l3 => rfl
    · rw [hoc]
      dsimp only
      rcases h with h | h
      · rw [h]
      · rw [h]
        cases convert_to_24hr o <;> rfl
  unfold is_center_open
  rw [hp]

/-- Witness for C2: an hours string with no `-` separator is treated as
closed. -/
theorem is_center_open_false_of_malformed_witness :
    is_center_open "Open 24 hours" ⟨2026, 1, 1, 12, 0⟩ = false :=
  is_center_open_false_of_malformed "Open 24 hours" ⟨2026, 1, 1, 12, 0⟩
    (Or.inl (by decide))

/-- C7 counterexample: `_is_center_open`'s only explicit parameter is the
hours string, and with that parameter held fixed the result still varies
with the internally read `datetime.now()` (here 10:00 vs 06:00), so the
check does depend on implicit wall-clock state rather than on an
explicitly passed instant. -/
theorem is_center_open_reads_wall_clock :
    is_center_open "9:00AM-9:00PM" ⟨2026, 6, 1, 10, 0⟩ ≠
      is_center_open "9:00AM-9:00PM" ⟨2026, 6, 1, 6, 0⟩ := by decide

/-- C7 amended: the check is deterministic in the hours string together
with the wall-clock reading, and of the clock it uses only the
minutes-since-midnight (`now.hour * 60 + now.minute`): two instants with
equal time of day give the same result for every hours string, whatever
their dates. -/
theorem is_center_open_determined_by_time_of_day (hours : String)
    (n1 n2 : Datetime) (h : minutesOfDay n1 = minutesOfDay n2) :
    is_center_open hours n1 = is_center_open hours n2 := by
  unfold is_center_open
  cases hp : parse_hours hours with
  | none => rfl
  | some p =>
    cases p with
    | mk om cm => rw [minutesOfDay, minutesOfDay] at h; dsimp only [minutesOfDay]; rw [h]

/-- Witness for the amended C7: same time of day on dates a year apart
gives the same answer. -/
theorem is_center_open_determined_by_time_of_day_witness :
    is_center_open "9:00AM-9:00PM" ⟨2025, 1, 1, 10, 30⟩ =
      is_center_open "9:00AM-9:00PM" ⟨2026, 12, 31, 10, 30⟩ :=
  is_center_open_determined_by_time_of_day "9:00AM-9:00PM"
    ⟨2025, 1, 1, 10, 30⟩ ⟨2026, 12, 31, 10, 30⟩ (by decide)

/-- Membership in the pre-limit pipeline: a returned row is exactly a
stored row paired with its computed distance (at most `max_distance`)
and its open status at the instant. -/
theorem mem_nearestUnlimited_iff (dist : DistFn) (cat : CoolingCenterData)
    (lat lng max_distance : ℚ) (now : Datetime) (row : QueryRow) :
    row ∈ nearestUnlimited dist cat lat lng max_distance now ↔
      ∃ s ∈ cat.df, dist lat lng s.center.coordinates ≤ max_distance ∧
        row = { row := s, distance := dist lat lng s.center.coordinates,
                is_open := is_center_open s.center.hours now } := by
  unfold nearestUnlimited
  simp only [List.mem_map, List.mem_insertionSort, List.mem_filter,
    decide_eq_true_eq]
  constructor
  · rintro ⟨a, ⟨⟨s, hs, hps⟩, hle⟩, hrow⟩
    subst hps
    exact ⟨s, hs, hle, hrow.symm⟩
  · rintro ⟨s, hs, hle, hrow⟩
    exact ⟨(s, dist lat lng s.center.coordinates), ⟨⟨s, hs, rfl⟩, hle⟩, hrow.symm⟩

/-- The limited result is a prefix-sublist of the pre-limit pipeline. -/
theorem get_nearest_sublist (dist : DistFn) (cat : CoolingCenterData)
    (lat lng max_distance : ℚ) (limit : Option Int) (now : Datetime) :
    (get_nearest_centers dist cat lat lng max_distance limit now).Sublist
      (nearestUnlimited dist cat lat lng max_distance now) := by
  unfold get_nearest_centers
  cases limit with
  | none => exact List.Sublist.refl _
  | some n =>
    dsimp only
    by_cases hn : n ≠ 0
    · rw [if_pos hn]
      unfold pyHead
      by_cases h0 : (0 : Int) ≤ n
      · rw [if_pos h0]; exact List.take_sublist _ _
      · rw [if_neg h0]; exact List.take_sublist _ _
    · rw [if_neg hn]

/-- C8: every query method leaves the stored catalog unchanged — after
any sequence of queries the DataFrame equals the one built at
construction, and the derived `distance`/`is_open` values live only in
the per-query `QueryRow` output, a type the stored rows do not even
contain. -/
theorem runQueries_preserves_catalog (cat : CoolingCenterData) (qs : List Query) :
    runQueries cat qs = cat := by
  induction qs generalizing cat with
  | nil => rfl
  | cons q rest ih =>
    show runQueries (runQuery cat q).2 rest = cat
    have h2 : (runQuery cat q).2 = cat := by cases q <;> rfl
    rw [h2]
    exact ih cat

/-- C9: `geocode_address` returns an optional pair and maps every
provider outcome to a value — a raised provider error (network, quota,
auth, malformed request) and an empty or malformed result list all
become `None` through the `except`/empty branches, and a well-formed
first result becomes its `(lat, lng)` pair — so the caller never sees an
exception. -/
theorem geocode_address_absent_on_failure (gmaps : String → GeocodeResponse)
    (address : String) :
    (∀ msg, gmaps address = .error msg → geocode_address gmaps address = none)
    ∧ (gmaps address = .ok [] → geocode_address gmaps address = none)
    ∧ (∀ rs, gmaps address = .ok (none :: rs) → geocode_address gmaps address = none)
    ∧ (∀ loc rs, gmaps address = .ok (some loc :: rs) →
        geocode_address gmaps address = some loc) := by
  refine ⟨fun msg h => ?_, fun h => ?_, fun rs h => ?_, fun loc rs h => ?_⟩ <;>
    · unfold geocode_address
      rw [h]

/-- Witness for C9: a provider that raises on every address yields an
absent geocode, not an exception. -/
theorem geocode_address_absent_on_failure_witness :
    geocode_address (fun _ => GeocodeResponse.error "quota exceeded")
      "nonexistent-address-xyz" = none :=
  (geocode_address_absent_on_failure
    (fun _ => GeocodeResponse.error "quota exceeded")
    "nonexistent-address-xyz").1 "quota exceeded" rfl

/-- C10: `head(limit)` is applied only when `limit` is truthy, so
`limit=0` — like `limit=None` — returns the full filtered result set,
while every positive `limit=n` caps the result at `n` rows. -/
theorem get_nearest_limit_zero_is_no_limit (dist : DistFn)
    (cat : CoolingCenterData) (lat lng max_distance : ℚ) (now : Datetime) :
    get_nearest_centers dist cat lat lng max_distance (some 0) now =
      get_nearest_centers dist cat lat lng max_distance none now
    ∧ ∀ n : Int, 0 < n →
        (get_nearest_centers dist cat lat lng max_distance (some n) now).length ≤
          n.toNat := by
  constructor
  · rfl
  · intro n hn
    unfold get_nearest_centers pyHead
    dsimp only
    rw [if_pos (ne_of_gt hn), if_pos (le_of_lt hn)]
    exact List.length_take_le _ _

/-- Witness for C10 at a positive limit: the six-center seed catalog
queried with `limit=1` returns at most one row. -/
theorem get_nearest_limit_zero_is_no_limit_witness :
    (get_nearest_centers (fun _ _ _ => 1) (CoolingCenterData.init COOLING_CENTERS)
      0 0 5 (some 1) ⟨2026, 1, 1, 12, 0⟩).length ≤ 1 :=
  (get_nearest_limit_zero_is_no_limit (fun _ _ _ => 1)
    (CoolingCenterData.init COOLING_CENTERS) 0 0 5 ⟨2026, 1, 1, 12, 0⟩).2
    1 (by decide)

/-- C5 amended: catalog construction never fails and never drops a
record — for every seed list, duplicate names included, the built
DataFrame carries exactly the seed records in order. -/
theorem init_keeps_every_seed_record (seed : List Center) :
    ((CoolingCenterData.init seed).df.map StoredRow.center) = seed := by
  unfold CoolingCenterData.init
  rw [List.map_map]
  exact List.map_id seed

/-- C5 counterexample: a seed list whose two records share the name
`"Dup Center"` is accepted by `__init__` — construction succeeds and the
catalog holds both records, where the claim says it must fail. -/
theorem init_accepts_duplicate_names :
    ((CoolingCenterData.init
      [ { name := "Dup Center", address := "1 First St", type := "Library"
        , coordinates := (1, 2), hours := "9:00AM-9:00PM", has_ac := true
        , features := ["Air Conditioning"], notes := "" }
      , { name := "Dup Center", address := "2 Second St", type := "Library"
        , coordinates := (3, 4), hours := "9:00AM-9:00PM", has_ac := true
        , features := ["Air Conditioning"], notes := "" } ]).df.map
        fun r => r.center.name) = ["Dup Center", "Dup Center"] := by
  rfl

/-- C3 amended: the result of `get_nearest_centers` is sorted ascending
by the `distance` column.  (`sort_values('distance')` is the only sort;
no name key is consulted for ties.) -/
theorem get_nearest_sorted_by_distance (dist : DistFn) (cat : CoolingCenterData)
    (lat lng max_distance : ℚ) (limit : Option Int) (now : Datetime) :
    List.Pairwise (fun a b : QueryRow => a.distance ≤ b.distance)
      (get_nearest_centers dist cat lat lng max_distance limit now) := by
  refine List.Pairwise.sublist
    (get_nearest_sublist dist cat lat lng max_distance limit now) ?_
  simp only [nearestUnlimited]
  rw [List.pairwise_map]
  exact List.sorted_insertionSort distLE _

/-- A concrete stand-in for the geodesic black box: distance `0` miles
for a facility at exactly the query point, `1` mile elsewhere.  Its only
property used below is one every function of the coordinates has —
identical coordinate pairs get identical distances — and it matches the
geodesic at the query point itself, where the geodesic is also `0`. -/
def unitDist : DistFn :=
  fun lat lng cc => if cc = (lat, lng) then 0 else 1

/-- A facility named after the end of the alphabet, listed first in the
tie seed. -/
def zetaCenter : Center :=
  { name := "Zeta Hall", address := "1 Same Spot", type := "Library"
  , coordinates := (1, 2), hours := "9:00AM-9:00PM", has_ac := true
  , features := ["Air Conditioning"], notes := "" }

/-- A facility named after the start of the alphabet, listed second in
the tie seed, at the same coordinates as `zetaCenter`. -/
def alphaCenter : Center :=
  { name := "Alpha Hall", address := "2 Same Spot", type := "Library"
  , coordinates := (1, 2), hours := "9:00AM-9:00PM", has_ac := true
  , features := ["Air Conditioning"], notes := "" }

/-- Seed data with two facilities at identical coordinates whose listing
order is descending by name. -/
def tieSeed : List Center :=
  [zetaCenter, alphaCenter]

/-- C3 counterexample: querying the tie seed from the shared coordinate
point gives two rows at equal distance, and they come back in
construction order `["Zeta Hall", "Alpha Hall"]`, which is descending by
name (`"Alpha Hall" < "Zeta Hall"`): `sort_values('distance')` applies
no name tie-break, so equal-distance rows are not returned in ascending
name order. -/
theorem get_nearest_tie_not_sorted_by_name :
    ((get_nearest_centers unitDist (CoolingCenterData.init tieSeed)
        1 2 5 none ⟨2026, 6, 1, 12, 0⟩).map fun r => r.row.center.name) =
      ["Zeta Hall", "Alpha Hall"]
    ∧ ((get_nearest_centers unitDist (CoolingCenterData.init tieSeed)
        1 2 5 none ⟨2026, 6, 1, 12, 0⟩).map QueryRow.distance) = [0, 0]
    ∧ "Alpha Hall".data < "Zeta Hall".data := by
  refine ⟨by decide, by decide, by decide⟩

/-- C4 amended: `get_nearest_centers` takes no `openOnly` flag and does
not filter on open status; instead every returned row carries an
`is_open` field equal to `_is_center_open` of its hours string at the
evaluation instant. -/
theorem get_nearest_annotates_open_status (dist : DistFn)
    (cat : CoolingCenterData) (lat lng max_distance : ℚ) (limit : Option Int)
    (now : Datetime) :
    ∀ row ∈ get_nearest_centers dist cat lat lng max_distance limit now,
      row.is_open = is_center_open row.row.center.hours now := by
  intro row hrow
  obtain ⟨s, _, _, heq⟩ :=
    (mem_nearestUnlimited_iff dist cat lat lng max_distance now row).1
      ((get_nearest_sublist dist cat lat lng max_distance limit now).subset hrow)
  rw [heq]

/-- A facility that is closed in the evening, for the open-status
counterexample. -/
def nightOwl : Center :=
  { name := "Day Center", address := "3 Early St", type := "Community Center"
  , coordinates := (1, 2), hours := "9:00AM-5:00PM", has_ac := true
  , features := ["Air Conditioning"], notes := "" }

/-- C4 counterexample: at 20:00 the only facility is closed, yet
`get_nearest_centers` — which has no `openOnly` parameter — still
returns its row, annotated `is_open = false`; the result is not
restricted to open rows. -/
theorem get_nearest_returns_closed_rows :
    ((get_nearest_centers unitDist (CoolingCenterData.init [nightOwl])
        1 2 5 none ⟨2026, 6, 1, 20, 0⟩).map QueryRow.is_open) = [false] := by
  decide

/-- Witness for the amended C4 at the closed facility: the returned
row's `is_open` annotation equals the open check of its hours string. -/
theorem get_nearest_annotates_open_status_witness :
    (QueryRow.mk (StoredRow.mk nightOwl 1 2) 0 false).is_open =
      is_center_open (StoredRow.mk nightOwl 1 2).center.hours ⟨2026, 6, 1, 20, 0⟩ :=
  get_nearest_annotates_open_status unitDist (CoolingCenterData.init [nightOwl])
    1 2 5 none ⟨2026, 6, 1, 20, 0⟩
    (QueryRow.mk (StoredRow.mk nightOwl 1 2) 0 false) (by decide)

/-- C6: no returned row's `distance` exceeds `max_distance` (the filter
is `distance <= max_distance`), and a facility at exactly
`max_distance` is retained: with no limit its row appears in the
result. -/
theorem get_nearest_within_max_distance (dist : DistFn)
    (cat : CoolingCenterData) (lat lng max_distance : ℚ) (limit : Option Int)
    (now : Datetime) :
    (∀ row ∈ get_nearest_centers dist cat lat lng max_distance limit now,
      row.distance ≤ max_distance)
    ∧ ∀ s ∈ cat.df, dist lat lng s.center.coordinates = max_distance →
        ∃ row ∈ get_nearest_centers dist cat lat lng max_distance none now,
          row.row = s ∧ row.distance = max_distance := by
  constructor
  · intro row hrow
    obtain ⟨s, _, hle, heq⟩ :=
      (mem_nearestUnlimited_iff dist cat lat lng max_distance now row).1
        ((get_nearest_sublist dist cat lat lng max_distance limit now).subset hrow)
    rw [heq]
    exact hle
  · intro s hs hd
    refine ⟨{ row := s, distance := dist lat lng s.center.coordinates,
              is_open := is_center_open s.center.hours now }, ?_, rfl, hd⟩
    show _ ∈ nearestUnlimited dist cat lat lng max_distance now
    exact (mem_nearestUnlimited_iff dist cat lat lng max_distance now _).2
      ⟨s, hs, le_of_eq hd, rfl⟩

/-- Witness for C6 on the tie seed with `max_distance = 0`: the returned
row's distance does not exceed the bound, and the facility at exactly
the bound is retained. -/
theorem get_nearest_within_max_distance_witness :
    (QueryRow.mk (StoredRow.mk zetaCenter 1 2) 0 true).distance ≤ 0
    ∧ ∃ row ∈ get_nearest_centers unitDist (CoolingCenterData.init tieSeed)
        1 2 0 none ⟨2026, 6, 1, 12, 0⟩,
        row.row = StoredRow.mk zetaCenter 1 2 ∧ row.distance = 0 :=
  ⟨(get_nearest_within_max_distance unitDist (CoolingCenterData.init tieSeed)
      1 2 0 none ⟨2026, 6, 1, 12, 0⟩).1
      (QueryRow.mk (StoredRow.mk zetaCenter 1 2) 0 true) (by decide),
   (get_nearest_within_max_distance unitDist (CoolingCenterData.init tieSeed)
      1 2 0 none ⟨2026, 6, 1, 12, 0⟩).2
      (StoredRow.mk zetaCenter 1 2) (by decide) (by decide)⟩
